import Mathlib

/-!
Shallow embedding of the AgroMate backend's cart / checkout / order subsystem
(src/backend/src: controllers/orderController.ts, controllers/adminOrderController.ts
including the cart controller, utils/cartUtils.ts, models/productModel.ts,
models/orderModel.ts), together with theorems settling the frozen claims.

Modelling conventions:
- JavaScript numbers (prices, quantities, stock) are modelled as rationals ℚ;
  Mongo ObjectIds are modelled as natural numbers.
- The document database is a `DB` record of product, cart and order lists;
  each Express handler becomes a function from the request data and the current
  `DB` to a response value (and, for mutating handlers, the successor `DB`).
- Mongoose schema validation that runs on `document.save()` / `Model.create`
  is modelled explicitly (order-item minimums, order-status enum); a failed
  validation surfaces as the handler's catch-all 500 response, exactly as the
  controllers' try/catch blocks do.
-/

namespace AgroMate

/-! ## Data model (models/productModel.ts, models/orderModel.ts, spec §3) -/

/-- A Product document (models/productModel.ts).  Fields not used by any claim
(category, unit, description, imageUrl, lowStockThreshold, featured, revenue,
views, expiryDate, isOrganic, timestamps) are omitted. -/
structure Product where
  id : Nat
  name : String
  price : ℚ
  stock : ℚ
  status : String
  farmer : Nat
  totalSold : ℚ
  totalValue : ℚ
  deriving DecidableEq

/-- One cart line: a product reference plus a quantity. -/
structure CartItem where
  product : Nat
  quantity : ℚ
  deriving DecidableEq

/-- A Cart document: one per user, a sequence of cart lines. -/
structure Cart where
  user : Nat
  items : List CartItem
  deriving DecidableEq

/-- One order line (orderItemSchema): product reference, quantity, and the
price snapshot taken at checkout time. -/
structure OrderItem where
  product : Nat
  quantity : ℚ
  price : ℚ
  deriving DecidableEq

/-- An Order document (orderSchema). -/
structure Order where
  id : Nat
  user : Nat
  items : List OrderItem
  subtotal : ℚ
  deliveryFee : ℚ
  total : ℚ
  status : String
  deriving DecidableEq

/-- The authenticated requester attached by the auth middleware. -/
structure User where
  id : Nat
  role : String
  deriving DecidableEq

/-- The document store: all products, carts and orders. -/
structure DB where
  products : List Product
  carts : List Cart
  orders : List Order
  deriving DecidableEq

/-- Lookup of a product document by id in a product collection. -/
def findProductIn (ps : List Product) (pid : Nat) : Option Product :=
  ps.find? (fun p => p.id == pid)

/-- Mongoose `populate` of a product reference: the referenced document, or
none when the reference is dangling. -/
def findProduct (db : DB) (pid : Nat) : Option Product :=
  findProductIn db.products pid

/-- Lookup of a cart document by user in a cart collection. -/
def findCartIn (cs : List Cart) (uid : Nat) : Option Cart :=
  cs.find? (fun c => c.user == uid)

/-- `Cart.findOne({user})`. -/
def findCart (db : DB) (uid : Nat) : Option Cart :=
  findCartIn db.carts uid

/-- `Order.findById`. -/
def findOrder (db : DB) (oid : Nat) : Option Order :=
  db.orders.find? (fun o => o.id == oid)

/-! ## Pricing utility (utils/cartUtils.ts) -/

/-- `Math.min` on two numbers. -/
def jsMin (a b : ℚ) : ℚ := if a ≤ b then a else b

/-- `Math.max` on two numbers. -/
def jsMax (a b : ℚ) : ℚ := if a ≤ b then b else a

/-- `calculateDeliveryFee` from utils/cartUtils.ts: free delivery from 500 up,
otherwise 10% of the subtotal floored, clamped into [10, 50]. -/
def calculateDeliveryFee (subtotal : ℚ) : ℚ :=
  if 500 ≤ subtotal then 0
  else
    let fee : ℚ := ((Int.floor (subtotal * (1 / 10)) : ℤ) : ℚ)
    jsMin 50 (jsMax 10 fee)

/-! ## Product pre-save hook (models/productModel.ts) -/

/-- The productSchema pre-save middleware: recompute totalValue = price × stock
and auto-correct status from stock.  Mongoose runs it on `document.save()` and
`Model.create` only — not on `bulkWrite` and not on `findByIdAndUpdate`. -/
def productPreSave (p : Product) : Product :=
  let p1 := { p with totalValue := p.price * p.stock }
  if p1.stock ≤ 0 then { p1 with status := "out_of_stock" }
  else if p1.status = "out_of_stock" ∧ 0 < p1.stock then { p1 with status := "active" }
  else p1

/-! ## Cart controller (adminOrderController.ts source file, cart section) -/

/-- The pricing summary returned by getCart. -/
structure CartSummary where
  items : List CartItem
  subtotal : ℚ
  deliveryFee : ℚ
  total : ℚ
  deriving DecidableEq

/-- Response of the getCart handler. -/
inductive CartViewResult where
  | ok (status : Nat) (body : CartSummary)
  | error (status : Nat) (message : String)
  deriving DecidableEq

/-- The subtotal reduce of getCart over the populated cart lines:
`sum + (item.product).price * item.quantity`.  A cart line whose populated
product is null makes the property access `(item.product).price` throw a
TypeError, modelled as `none` (the handler's catch turns it into a 500). -/
def cartSubtotal (db : DB) : List CartItem → Option ℚ
  | [] => some 0
  | it :: rest =>
    match findProduct db it.product with
    | none => none
    | some p =>
      match cartSubtotal db rest with
      | none => none
      | some s => some (p.price * it.quantity + s)

/-- The getCart handler: empty-cart default shape when no cart document
exists, otherwise live-price subtotal, delivery fee and total. -/
def getCart (db : DB) (uid : Nat) : CartViewResult :=
  match findCart db uid with
  | none => .ok 200 ⟨[], 0, 0, 0⟩
  | some cart =>
    match cartSubtotal db cart.items with
    | none => .error 500 "Server error"
    | some subtotal =>
      let deliveryFee := calculateDeliveryFee subtotal
      let total := subtotal + deliveryFee
      .ok 200 ⟨cart.items, subtotal, deliveryFee, total⟩

/-- Response of the addToCart handler. -/
inductive CartResult where
  | ok (status : Nat) (cart : Cart)
  | error (status : Nat) (message : String)
  deriving DecidableEq

/-- Modelled from the spec: the cart schema module (models/cartModel.ts) is not
among the provided source files — only its callers are.  Spec §3 describes a
cart as an "ordered sequence of {product reference, quantity ≥1}", so saving a
cart document validates every line quantity against the minimum 1 (exactly as
the sibling orderItemSchema in models/orderModel.ts enforces min 1). -/
def cartItemsValid (items : List CartItem) : Bool :=
  items.all (fun it => decide ((1 : ℚ) ≤ it.quantity))

/-- `cart.save()`: runs the modelled schema validation, then persists the
document by replacing the user's cart in the collection. -/
def saveCart (db : DB) (c : Cart) : Except String DB :=
  if cartItemsValid c.items then
    .ok { db with carts := db.carts.map (fun x => if x.user == c.user then c else x) }
  else .error "ValidationError"

/-- `Cart.findOneAndUpdate({user}, {$setOnInsert: {user, items: []}},
{new, upsert})`: returns the existing cart, or persists and returns a fresh
empty one. -/
def upsertCart (db : DB) (uid : Nat) : Cart × DB :=
  match findCart db uid with
  | some c => (c, db)
  | none => (⟨uid, []⟩, { db with carts := db.carts ++ [⟨uid, []⟩] })

/-- The in-memory cart mutation of addToCart: increment the quantity of the
existing line for the product, or push a new line. -/
def mergeCartItem (items : List CartItem) (productId : Nat) (quantity : ℚ) :
    List CartItem :=
  if items.any (fun it => it.product == productId) then
    items.map (fun it =>
      if it.product == productId then { it with quantity := it.quantity + quantity }
      else it)
  else items ++ [⟨productId, quantity⟩]

/-- The addToCart handler.  The request-body normalization (object-valued
productId) and the ObjectId format check concern malformed requests outside
every claim; the model receives the already-extracted product id.  The default
of the quantity field (1) is applied by the caller of this model. -/
def addToCart (db : DB) (uid : Nat) (productId : Nat) (quantity : ℚ) :
    CartResult × DB :=
  match findProduct db productId with
  | none => (.error 404 "Product not found or inactive", db)
  | some p =>
    if p.status = "active" then
      let up := upsertCart db uid
      let newCart : Cart := { up.1 with items := mergeCartItem up.1.items productId quantity }
      match saveCart up.2 newCart with
      | .ok db2 => (.ok 200 newCart, db2)
      | .error _ => (.error 500 "Server error", up.2)
    else (.error 404 "Product not found or inactive", db)

/-! ## Checkout and order queries (orderController.ts) -/

/-- Response of the order-returning handlers. -/
inductive OrderResult where
  | ok (status : Nat) (order : Order)
  | error (status : Nat) (message : String)
  deriving DecidableEq

/-- The validation loop of checkout over the populated cart lines: reject a
line whose product is missing or not active, or whose stock is below the
requested quantity; otherwise accumulate the order-item snapshot and the
subtotal.  (For the not-available message the code interpolates the populated
value itself — null, or the whole product document; the model renders the
document as its id, no claim depends on that middle part.) -/
def checkoutValidateItems (db : DB) : List CartItem → Except String (List OrderItem × ℚ)
  | [] => .ok ([], 0)
  | it :: rest =>
    match findProduct db it.product with
    | none => .error "Product null not available"
    | some p =>
      if p.status = "active" then
        if p.stock < it.quantity then
          .error ("Insufficient stock for " ++ p.name ++ ". Available: " ++ toString p.stock)
        else
          match checkoutValidateItems db rest with
          | .error msg => .error msg
          | .ok pr => .ok (⟨p.id, it.quantity, p.price⟩ :: pr.1, p.price * it.quantity + pr.2)
      else .error ("Product " ++ toString p.id ++ " not available")

/-- Mongoose validation run by `Order.create` (orderItemSchema: quantity min 1,
price min 0); a failed creation throws and nothing is persisted. -/
def orderItemsValid (items : List OrderItem) : Bool :=
  items.all (fun it => decide ((1 : ℚ) ≤ it.quantity) && decide ((0 : ℚ) ≤ it.price))

/-- One updateOne of the checkout bulkWrite. -/
structure BulkOp where
  pid : Nat
  qty : ℚ
  newStatus : String
  deriving DecidableEq

/-- The field update an op performs: `$inc` stock and totalSold, `$set` status.
No other field is touched — in particular totalValue is not recomputed and the
pre-save hook does not run for a bulkWrite. -/
def bulkUpdate (op : BulkOp) (p : Product) : Product :=
  { p with stock := p.stock - op.qty, totalSold := p.totalSold + op.qty,
           status := op.newStatus }

/-- The op list built over cart.items for Product.bulkWrite: each op carries
the product id, the quantity, and the status computed from the populated
(pre-decrement) stock: out_of_stock when stock - quantity ≤ 0, else active.
In the success path every line's product resolved during validation, so the
filterMap skips nothing. -/
def mkBulkOps (db : DB) (items : List CartItem) : List BulkOp :=
  items.filterMap (fun it =>
    (findProduct db it.product).map (fun p =>
      ⟨p.id, it.quantity,
        if p.stock - it.quantity ≤ 0 then "out_of_stock" else "active"⟩))

def applyBulkOp (ps : List Product) (op : BulkOp) : List Product :=
  ps.map (fun p => if p.id == op.pid then bulkUpdate op p else p)

def applyBulkOps (ps : List Product) (ops : List BulkOp) : List Product :=
  ops.foldl applyBulkOp ps

/-- `cart.items = []; await cart.save()` — empties, never deletes, the user's
cart (an empty item list passes the cart schema validation trivially). -/
def clearCart (db : DB) (uid : Nat) : DB :=
  { db with carts := db.carts.map (fun c => if c.user == uid then { c with items := [] } else c) }

/-- The checkout handler (POST /api/orders/checkout). -/
def checkout (db : DB) (uid : Nat) : OrderResult × DB :=
  match findCart db uid with
  | none => (.error 400 "Cart is empty", db)
  | some cart =>
    if cart.items.isEmpty then (.error 400 "Cart is empty", db)
    else
      match checkoutValidateItems db cart.items with
      | .error msg => (.error 400 msg, db)
      | .ok pr =>
        let subtotal := pr.2
        let deliveryFee := calculateDeliveryFee subtotal
        let total := subtotal + deliveryFee
        if orderItemsValid pr.1 then
          let order : Order :=
            ⟨db.orders.length, uid, pr.1, subtotal, deliveryFee, total, "placed"⟩
          let db1 : DB := { db with orders := db.orders ++ [order] }
          let db2 : DB :=
            { db1 with products := applyBulkOps db1.products (mkBulkOps db cart.items) }
          (.ok 201 order, clearCart db2 uid)
        else (.error 500 "Server error", db)

/-- A string produced by the two toString() calls in getOrderById's ownership
check.  `Order.findById(..).populate('items.product user', '-password')`
hydrates order.user into a full User document, and Document.prototype.toString
renders the whole document — an inspect string of the shape
"{ _id: new ObjectId('...'), name: '...', ... }" — while req.user._id.toString()
is the bare hex id.  The two renderings are distinct JS strings for every
owner and requester (one is brace-wrapped, the other is plain hex), which the
two constructors capture. -/
inductive MongoStr where
  | docInspect (ownerId : Nat)
  | idHex (id : Nat)
  deriving DecidableEq

/-- The getOrderById handler: 404 when the order is missing; then
`order.user.toString() !== req.user._id.toString() && role !== 'admin'` guards
the 403.  Because order.user was populated, the left toString is the
document-inspect rendering and the comparison never holds equal — so every
non-admin requester, the owner included, is rejected.  (The model assumes the
owner's user document exists; a dangling user reference would make
`null.toString()` throw, a 500 outside every claim.) -/
def getOrderById (db : DB) (oid : Nat) (requester : User) : OrderResult :=
  match findOrder db oid with
  | none => .error 404 "Order not found"
  | some o =>
    if MongoStr.docInspect o.user != MongoStr.idHex requester.id &&
        requester.role != "admin" then
      .error 403 "Not authorized to view this order"
    else .ok 200 o

/-- populate({path: items.product, match: {farmer}}) on one order line: the
product document when it exists and belongs to the farmer, otherwise null. -/
def populateItemProductForFarmer (db : DB) (fid : Nat) (it : OrderItem) :
    Option Product :=
  match findProduct db it.product with
  | none => none
  | some p => if p.farmer == fid then some p else none

/-- The getFarmerOrders handler: Order.find({items.product exists}) keeps the
orders with at least one line; the controller then keeps orders where some
line's match-populated product is non-null and its farmer equals the
requester.  The createdAt sort only orders the result and is not modelled. -/
def getFarmerOrders (db : DB) (fid : Nat) : List Order :=
  (db.orders.filter (fun o => !o.items.isEmpty)).filter (fun o =>
    o.items.any (fun it =>
      match populateItemProductForFarmer db fid it with
      | some p => p.farmer == fid
      | none => false))

/-! ## Admin order controller (adminOrderController.ts) -/

/-- The statuses the updateOrderStatus controller accepts. -/
def allowedStatuses : List String := ["processing", "in_transit", "delivered", "cancelled"]

/-- The status enum of orderSchema (models/orderModel.ts). -/
def orderStatusEnum : List String := ["placed", "shipped", "delivered", "cancelled"]

/-- `order.save()`: mongoose re-validates the modified status path against the
schema enum before persisting. -/
def saveOrder (db : DB) (o : Order) : Except String DB :=
  if orderStatusEnum.contains o.status then
    .ok { db with orders := db.orders.map (fun x => if x.id == o.id then o else x) }
  else .error "ValidationError"

/-- The updateOrderStatus handler (PATCH /admin/orders/:id/status). -/
def updateOrderStatus (db : DB) (oid : Nat) (status : String) : OrderResult × DB :=
  if !allowedStatuses.contains status then (.error 400 "Invalid status", db)
  else
    match findOrder db oid with
    | none => (.error 404 "Order not found", db)
    | some o =>
      let updated : Order := { o with status := status }
      match saveOrder db updated with
      | .ok db2 => (.ok 200 updated, db2)
      | .error _ => (.error 500 "Failed to update order", db)

/-! ## Decidable preconditions and helper measures used by the theorems -/

/-- One cart line passes the checkout validation: its product resolves, is
active, and has stock at least the requested quantity. -/
def lineAvailable (db : DB) (it : CartItem) : Bool :=
  match findProduct db it.product with
  | none => false
  | some p => p.status == "active" && !(decide (p.stock < it.quantity))

/-- The blocking condition of claim C1: no cart, an empty cart, or some line
failing the availability validation. -/
def checkoutBlocked (db : DB) (uid : Nat) : Bool :=
  match findCart db uid with
  | none => true
  | some cart => cart.items.isEmpty || cart.items.any (fun it => !(lineAvailable db it))

/-- The three specific validation-failure reasons of checkout. -/
def checkoutFailureMsg (msg : String) : Prop :=
  msg = "Cart is empty" ∨
  (∃ s, msg = "Product " ++ s ++ " not available") ∨
  (∃ s, msg = "Insufficient stock for " ++ s)

/-- Precondition of claim C2 for one cart line: an active resolved product
with stock ≥ quantity.  The extra bounds quantity ≥ 1 and price ≥ 0 are the
schema minimums of the cart and product models, which every persisted document
satisfies. -/
def lineOK (db : DB) (it : CartItem) : Bool :=
  match findProduct db it.product with
  | none => false
  | some p =>
    p.status == "active" && decide (it.quantity ≤ p.stock) &&
      decide ((1 : ℚ) ≤ it.quantity) && decide ((0 : ℚ) ≤ p.price)

/-- The current-price amount of one cart line. -/
def lineAmount (db : DB) (it : CartItem) : ℚ :=
  ((findProduct db it.product).map (fun p => p.price * it.quantity)).getD 0

/-- The order-item snapshot a cart line turns into at checkout. -/
def orderItemOf (db : DB) (it : CartItem) : OrderItem :=
  ⟨it.product, it.quantity, ((findProduct db it.product).map (fun p => p.price)).getD 0⟩

/-- The stock of a product as read at populate time. -/
def stockOf (db : DB) (pid : Nat) : ℚ :=
  ((findProduct db pid).map (fun p => p.stock)).getD 0

/-- The bulk op a cart line produces, given the line's product resolves. -/
def opOf (db : DB) (it : CartItem) : BulkOp :=
  ⟨it.product, it.quantity,
    if stockOf db it.product - it.quantity ≤ 0 then "out_of_stock" else "active"⟩

/-- Quantity of the user's existing cart line for a product, if any. -/
def prevQty (db : DB) (uid : Nat) (pid : Nat) : Option ℚ :=
  (findCart db uid).bind (fun c =>
    (c.items.find? (fun it => it.product == pid)).map (fun it => it.quantity))

/-! ## Concrete documents used by witnesses and counterexamples -/

/-- An active product: price 100, stock 5 (spec §8 end-to-end scenario). -/
def demoProduct : Product := ⟨1, "Tomato", 100, 5, "active", 3, 0, 500⟩

/-- User 7's cart holding 2 units of the demo product. -/
def demoCart : Cart := ⟨7, [⟨1, 2⟩]⟩

/-- A store with one product and one cart. -/
def demoDB : DB := ⟨[demoProduct], [demoCart], []⟩

/-- A placed order of user 7 over the demo product. -/
def demoOrder : Order := ⟨11, 7, [⟨1, 2, 100⟩], 200, 20, 220, "placed"⟩

/-- A store with one product and one placed order. -/
def demoOrderDB : DB := ⟨[demoProduct], [], [demoOrder]⟩

/-- A store with no documents at all. -/
def emptyDB : DB := ⟨[], [], []⟩

/-- User 7's cart holding 5 units of the demo product. -/
def demoCart5 : Cart := ⟨7, [⟨1, 5⟩]⟩

/-- A store with one product and user 7's five-unit cart. -/
def demoDB5 : DB := ⟨[demoProduct], [demoCart5], []⟩

/-- A store with one product and no carts. -/
def demoDBnoCart : DB := ⟨[demoProduct], [], []⟩

end AgroMate

namespace AgroMate

/-! ## Theorems -/

theorem jsMin_eq_min (a b : ℚ) : jsMin a b = min a b := by
  rw [jsMin, min_def]

theorem jsMax_eq_max (a b : ℚ) : jsMax a b = max a b := by
  rw [jsMax, max_def]

/-- Claim C3: for every non-negative subtotal, the delivery fee is 0 from the
free-delivery threshold 500 upward, and otherwise equals
min(50, max(10, floor(subtotal × 0.1))); in particular the fee is 10 at 80,
30 at 300 and 0 at 500.  The function is a pure Lean `def`, hence
deterministic and side-effect free. -/
theorem calculateDeliveryFee_spec (s : ℚ) (h : 0 ≤ s) :
    (500 ≤ s → calculateDeliveryFee s = 0) ∧
    (s < 500 →
      calculateDeliveryFee s = min 50 (max 10 ((Int.floor (s * (1 / 10)) : ℤ) : ℚ))) ∧
    calculateDeliveryFee 80 = 10 ∧
    calculateDeliveryFee 300 = 30 ∧
    calculateDeliveryFee 500 = 0 := by
  refine ⟨fun h5 => ?_, fun h5 => ?_, ?_, ?_, ?_⟩
  · simp [calculateDeliveryFee, h5]
  · simp [calculateDeliveryFee, not_le.mpr h5, jsMin_eq_min, jsMax_eq_max]
  · norm_num [calculateDeliveryFee, jsMin, jsMax]
  · norm_num [calculateDeliveryFee, jsMin, jsMax]
  · norm_num [calculateDeliveryFee]

/-- Witness for C3 at subtotal 80. -/
theorem calculateDeliveryFee_spec_witness :
    (0 : ℚ) ≤ 80 ∧ calculateDeliveryFee 80 = 10 :=
  ⟨by norm_num, (calculateDeliveryFee_spec 80 (by norm_num)).2.2.1⟩

/-- Claim C9: for a user with no cart document, getCart returns status 200
with exactly the shape items = [], subtotal = 0, deliveryFee = 0, total = 0 —
never an error. -/
theorem getCart_no_cart_empty_shape (db : DB) (uid : Nat)
    (h : findCart db uid = none) :
    getCart db uid = .ok 200 ⟨[], 0, 0, 0⟩ := by
  simp [getCart, h]

/-- Witness for C9: the empty store has no cart for user 0. -/
theorem getCart_no_cart_empty_shape_witness :
    findCart emptyDB 0 = none ∧ getCart emptyDB 0 = .ok 200 ⟨[], 0, 0, 0⟩ :=
  ⟨rfl, getCart_no_cart_empty_shape emptyDB 0 rfl⟩

/-- Counterexample to claim C4 as stated: for a user with no cart document,
getCart responds 200 with subtotal 0 and total 0, yet
subtotal + calculateDeliveryFee(subtotal) = 0 + 10 ≠ 0, because the missing-cart
branch hardcodes deliveryFee 0 instead of calling calculateDeliveryFee. -/
theorem getCart_missing_cart_total_counterexample :
    getCart emptyDB 0 = .ok 200 ⟨[], 0, 0, 0⟩ ∧
    (0 : ℚ) + calculateDeliveryFee 0 ≠ 0 := by
  refine ⟨rfl, ?_⟩
  norm_num [calculateDeliveryFee, jsMin, jsMax]

/-- Claim C4 (amended): for every user whose cart document exists and whose
lines all resolve, the getCart response satisfies
total = subtotal + calculateDeliveryFee(subtotal), with subtotal the
live-price sum over the cart lines. -/
theorem getCart_total_invariant (db : DB) (uid : Nat) (cart : Cart) (s : ℚ)
    (hc : findCart db uid = some cart) (hs : cartSubtotal db cart.items = some s) :
    getCart db uid =
      .ok 200 ⟨cart.items, s, calculateDeliveryFee s, s + calculateDeliveryFee s⟩ := by
  simp [getCart, hc, hs]

/-- Witness for the amended C4 on the demo store: subtotal 200, fee 20. -/
theorem getCart_total_invariant_witness :
    findCart demoDB 7 = some demoCart ∧
    cartSubtotal demoDB demoCart.items = some 200 ∧
    getCart demoDB 7 =
      .ok 200 ⟨demoCart.items, 200, calculateDeliveryFee 200,
               200 + calculateDeliveryFee 200⟩ := by
  have hs : cartSubtotal demoDB demoCart.items = some 200 := by
    simp [cartSubtotal, findProduct, findProductIn, demoDB, demoCart, demoProduct,
      List.find?]
    norm_num
  exact ⟨rfl, hs, getCart_total_invariant demoDB 7 demoCart 200 rfl hs⟩

/-- Claim C6 evaluated at its failing input: order 11 belongs to user 7, yet
the owner (requester id 7, role buyer) receives 403, exactly like a stranger,
though the code's own comment says "Allow if owner or admin" — because after
populate('items.product user') the guard compares the owner document's
inspect rendering with the requester's bare id string and they never match.
Only an admin reaches the 200 branch; a missing order still answers 404. -/
theorem getOrderById_owner_403 :
    findOrder demoOrderDB 11 = some demoOrder ∧
    demoOrder.user = 7 ∧
    getOrderById demoOrderDB 11 ⟨7, "buyer"⟩ =
      .error 403 "Not authorized to view this order" ∧
    getOrderById demoOrderDB 11 ⟨8, "buyer"⟩ =
      .error 403 "Not authorized to view this order" ∧
    getOrderById demoOrderDB 11 ⟨9, "admin"⟩ = .ok 200 demoOrder ∧
    getOrderById demoOrderDB 12 ⟨7, "buyer"⟩ = .error 404 "Order not found" :=
  ⟨rfl, rfl, rfl, rfl, rfl, rfl⟩

/-- Claim C8 evaluated at its failing input: the controller accepts
"in_transit" (and "processing"), but the order schema enum only admits
placed/shipped/delivered/cancelled, so order.save() fails validation and the
handler answers 500 with the order unchanged — not 200 with the status
persisted, as the claim states. -/
theorem updateOrderStatus_in_transit_500 :
    "in_transit" ∈ allowedStatuses ∧
    "in_transit" ∉ orderStatusEnum ∧
    updateOrderStatus demoOrderDB 11 "in_transit" =
      (.error 500 "Failed to update order", demoOrderDB) ∧
    updateOrderStatus demoOrderDB 11 "delivered" =
      (.ok 200 { demoOrder with status := "delivered" },
        ⟨[demoProduct], [], [{ demoOrder with status := "delivered" }]⟩) := by
  exact ⟨by decide, by decide, rfl, rfl⟩

/-- Claim C5 (amended): the pre-save hook re-establishes
totalValue = price × stock on every save-mediated Product mutation. -/
theorem productPreSave_totalValue (p : Product) :
    (productPreSave p).totalValue = (productPreSave p).price * (productPreSave p).stock := by
  unfold productPreSave
  dsimp only
  split
  · rfl
  · split <;> rfl

/-- Counterexample to claim C5 as stated: checkout's bulkWrite decrements the
demo product's stock from 5 to 3 but leaves totalValue at 500 ≠ 100 × 3 = 300,
because a bulkWrite bypasses the pre-save hook that recomputes totalValue. -/
theorem checkout_totalValue_stale_counterexample :
    demoProduct.totalValue = demoProduct.price * demoProduct.stock ∧
    (findProduct (checkout demoDB 7).2 1).map
        (fun p => (p.stock, p.totalValue, decide (p.totalValue = p.price * p.stock))) =
      some (3, 500, false) := by
  constructor
  · norm_num [demoProduct]
  · norm_num [checkout, findCart, findCartIn, demoDB, demoCart, demoProduct,
      checkoutValidateItems, findProduct, findProductIn, orderItemsValid,
      mkBulkOps, applyBulkOps, applyBulkOp, bulkUpdate, clearCart,
      List.find?, List.filterMap, List.all, List.isEmpty]

theorem farmer_line_check (db : DB) (fid : Nat) (it : OrderItem) :
    ((match populateItemProductForFarmer db fid it with
      | some p => p.farmer == fid
      | none => false) = true) ↔
      ∃ p, findProduct db it.product = some p ∧ p.farmer = fid := by
  unfold populateItemProductForFarmer
  cases h : findProduct db it.product with
  | none => simp [h]
  | some p =>
    by_cases hf : p.farmer = fid
    · simp [h, hf]
    · simp [h, hf]

/-- Claim C7: an order is in the getFarmerOrders result for farmer F exactly
when it is stored and at least one of its line items resolves to an existing
product whose farmer reference is F. -/
theorem getFarmerOrders_visibility (db : DB) (fid : Nat) (o : Order) :
    o ∈ getFarmerOrders db fid ↔
      o ∈ db.orders ∧
        ∃ it ∈ o.items, ∃ p, findProduct db it.product = some p ∧ p.farmer = fid := by
  unfold getFarmerOrders
  constructor
  · intro h
    have h1 := (List.mem_filter.mp h).1
    have h2 := (List.mem_filter.mp h).2
    refine ⟨(List.mem_filter.mp h1).1, ?_⟩
    obtain ⟨it, hit, hb⟩ := List.any_eq_true.mp h2
    exact ⟨it, hit, (farmer_line_check db fid it).mp hb⟩
  · rintro ⟨ho, it, hit, hp⟩
    refine List.mem_filter.mpr ⟨List.mem_filter.mpr ⟨ho, ?_⟩, ?_⟩
    · simp [List.isEmpty_iff, List.ne_nil_of_mem hit]
    · exact List.any_eq_true.mpr ⟨it, hit, (farmer_line_check db fid it).mpr hp⟩

theorem checkoutValidateItems_shape (db : DB) (items : List CartItem) :
    (∃ pr, checkoutValidateItems db items = .ok pr) ∨
    (∃ msg, checkoutValidateItems db items = .error msg ∧ checkoutFailureMsg msg) := by
  induction items with
  | nil => exact .inl ⟨([], 0), rfl⟩
  | cons it rest ih =>
    unfold checkoutValidateItems
    cases h : findProduct db it.product with
    | none =>
      exact .inr ⟨"Product null not available", rfl, .inr (.inl ⟨"null", rfl⟩)⟩
    | some p =>
      dsimp only
      by_cases hact : p.status = "active"
      · rw [if_pos hact]
        by_cases hstk : p.stock < it.quantity
        · rw [if_pos hstk]
          exact .inr ⟨_, rfl, .inr (.inr ⟨p.name ++ ". Available: " ++ toString p.stock, by
            simp [String.append_assoc]⟩)⟩
        · rw [if_neg hstk]
          rcases ih with ⟨pr, hok⟩ | ⟨msg, herr, hshape⟩
          · rw [hok]
            exact .inl ⟨_, rfl⟩
          · rw [herr]
            exact .inr ⟨msg, rfl, hshape⟩
      · rw [if_neg hact]
        exact .inr ⟨_, rfl, .inr (.inl ⟨toString p.id, rfl⟩)⟩

theorem checkoutValidateItems_ok_lines (db : DB) (items : List CartItem)
    (pr : List OrderItem × ℚ) (h : checkoutValidateItems db items = .ok pr) :
    ∀ it ∈ items, lineAvailable db it = true := by
  induction items generalizing pr with
  | nil => intro it hit; cases hit
  | cons it0 rest ih =>
    intro it hit
    unfold checkoutValidateItems at h
    cases hp : findProduct db it0.product with
    | none => rw [hp] at h; cases h
    | some p =>
      rw [hp] at h
      dsimp only at h
      by_cases hact : p.status = "active"
      · rw [if_pos hact] at h
        by_cases hstk : p.stock < it0.quantity
        · rw [if_pos hstk] at h; cases h
        · rw [if_neg hstk] at h
          cases hrest : checkoutValidateItems db rest with
          | error msg => rw [hrest] at h; cases h
          | ok pr2 =>
            rcases List.mem_cons.mp hit with rfl | hmem
            · simp [lineAvailable, hp, hact, hstk]
            · exact ih pr2 hrest it hmem
      · rw [if_neg hact] at h; cases h

/-- Claim C1: whenever the cart is missing or empty, or some cart line's
product is missing, inactive, or short of stock, checkout answers 400 with one
of the three specific reasons and performs no write at all: the store is
returned unchanged (no order, no product change, cart untouched). -/
theorem checkout_validation_failure_no_write (db : DB) (uid : Nat)
    (h : checkoutBlocked db uid = true) :
    ∃ msg, checkout db uid = (.error 400 msg, db) ∧ checkoutFailureMsg msg := by
  unfold checkout
  unfold checkoutBlocked at h
  cases hc : findCart db uid with
  | none => exact ⟨"Cart is empty", rfl, .inl rfl⟩
  | some cart =>
    rw [hc] at h
    dsimp only at h ⊢
    by_cases he : cart.items.isEmpty
    · rw [if_pos he]
      exact ⟨"Cart is empty", rfl, .inl rfl⟩
    · rw [if_neg he]
      have hbad : ∃ it ∈ cart.items, lineAvailable db it ≠ true := by
        rcases Bool.or_eq_true _ _ |>.mp h with h1 | h2
        · exact absurd h1 he
        · obtain ⟨it, hit, hb⟩ := List.any_eq_true.mp h2
          exact ⟨it, hit, by simpa using hb⟩
      rcases checkoutValidateItems_shape db cart.items with ⟨pr, hok⟩ | ⟨msg, herr, hshape⟩
      · obtain ⟨it, hit, hfa⟩ := hbad
        exact absurd (checkoutValidateItems_ok_lines db cart.items pr hok it hit) hfa
      · rw [herr]
        exact ⟨msg, rfl, hshape⟩

/-- Witness for C1: checking out with no cart document answers 400 and leaves
the empty store unchanged. -/
theorem checkout_validation_failure_no_write_witness :
    checkoutBlocked emptyDB 0 = true ∧
    ∃ msg, checkout emptyDB 0 = (.error 400 msg, emptyDB) ∧ checkoutFailureMsg msg :=
  ⟨rfl, checkout_validation_failure_no_write emptyDB 0 rfl⟩

theorem find?_map_of_pred {α : Type} (f : α → α) (p : α → Bool) (l : List α)
    (hf : ∀ a, p (f a) = p a) :
    (l.map f).find? p = (l.find? p).map f := by
  induction l with
  | nil => rfl
  | cons a rest ih =>
    simp only [List.map_cons, List.find?]
    rw [hf a]
    cases hp : p a
    · simpa using ih
    · rfl

theorem find?_append_none {α : Type} (p : α → Bool) (l1 l2 : List α)
    (h : l1.find? p = none) : (l1 ++ l2).find? p = l2.find? p := by
  induction l1 with
  | nil => rfl
  | cons a rest ih =>
    simp only [List.find?] at h ⊢
    cases hp : p a
    · rw [hp] at h
      simpa using ih (by simpa using h)
    · rw [hp] at h
      cases h

theorem find?_mergeCartItem (items : List CartItem) (pid : Nat) (q : ℚ) :
    ((mergeCartItem items pid q).find? (fun it => it.product == pid)).map
        (fun it => it.quantity) =
      some ((((items.find? (fun it => it.product == pid)).map
        (fun it => it.quantity)).getD 0) + q) := by
  unfold mergeCartItem
  by_cases hany : (items.any (fun it => it.product == pid)) = true
  · rw [if_pos hany]
    rw [find?_map_of_pred _ _ _ ?hpres]
    case hpres =>
      intro it
      by_cases hit : (it.product == pid) = true
      · simp [hit]
      · simp only [Bool.not_eq_true] at hit
        simp [hit]
    obtain ⟨it0, hmem, hit0⟩ := List.any_eq_true.mp hany
    have hfind : ∃ it1, items.find? (fun it => it.product == pid) = some it1 := by
      have hsome : (items.find? (fun it => it.product == pid)).isSome := by
        rw [List.find?_isSome]
        exact ⟨it0, hmem, hit0⟩
      exact Option.isSome_iff_exists.mp hsome
    obtain ⟨it1, hit1⟩ := hfind
    have hp1 : it1.product = pid := by simpa using List.find?_some hit1
    rw [hit1]
    simp [hp1]
  · rw [if_neg hany]
    have hnone : items.find? (fun it => it.product == pid) = none := by
      rw [List.find?_eq_none]
      intro it hit
      simpa using (List.any_eq_false.mp (Bool.not_eq_true _ |>.mp hany)) it hit
    rw [find?_append_none _ _ _ hnone, hnone]
    simp [List.find?]

theorem upsertCart_user (db : DB) (uid : Nat) : (upsertCart db uid).1.user = uid := by
  unfold upsertCart
  cases hc : findCart db uid with
  | none => rfl
  | some c =>
    unfold findCart findCartIn at hc
    have := List.find?_some hc
    simpa using this

theorem findCart_upsert (db : DB) (uid : Nat) :
    findCart (upsertCart db uid).2 uid = some (upsertCart db uid).1 := by
  unfold upsertCart
  cases hc : findCart db uid with
  | some c => simpa using hc
  | none =>
    dsimp only
    unfold findCart findCartIn at hc ⊢
    rw [find?_append_none _ _ _ hc]
    simp [List.find?]

/-- Counterexample to claim C10 as stated: adding quantity 0 of the active
demo product for a user without a cart does not answer 200 with a zero-
quantity line persisted; the modelled cart schema minimum (quantity ≥ 1)
fails the save, the handler answers 500, and only the upserted empty cart
remains in the store. -/
theorem addToCart_zero_quantity_counterexample :
    (addToCart demoDBnoCart 7 1 0).1 = .error 500 "Server error" ∧
    (addToCart demoDBnoCart 7 1 0).2 = ⟨[demoProduct], [⟨7, []⟩], []⟩ := by
  exact ⟨rfl, rfl⟩

/-- Claim C10 (amended): addToCart itself imposes no lower bound and no
integrality requirement on the request's quantity q — any rational q, also
negative, is merged as previous quantity + q — but the cart schema minimum
re-validates the resulting lines at save: when every resulting quantity stays
at least 1 the call answers 200 and persists the merged cart, and otherwise
(for example q = 0 on a fresh line) the save fails and the handler answers
500. -/
theorem addToCart_merges_quantity (db : DB) (uid : Nat) (pid : Nat) (q : ℚ)
    (p : Product) (hp : findProduct db pid = some p) (hact : p.status = "active")
    (hval : cartItemsValid (mergeCartItem (upsertCart db uid).1.items pid q) = true) :
    ∃ c, (addToCart db uid pid q).1 = .ok 200 c ∧
      findCart (addToCart db uid pid q).2 uid = some c ∧
      (c.items.find? (fun it => it.product == pid)).map (fun it => it.quantity) =
        some ((prevQty db uid pid).getD 0 + q) := by
  have huser : (upsertCart db uid).1.user = uid := upsertCart_user db uid
  refine ⟨{ (upsertCart db uid).1 with
            items := mergeCartItem (upsertCart db uid).1.items pid q }, ?_, ?_, ?_⟩
  · unfold addToCart
    rw [hp]
    dsimp only
    rw [if_pos hact]
    unfold saveCart
    rw [if_pos hval]
  · unfold addToCart
    rw [hp]
    dsimp only
    rw [if_pos hact]
    unfold saveCart
    rw [if_pos hval]
    dsimp only
    unfold findCart findCartIn
    rw [find?_map_of_pred _ _ _ ?hpres]
    case hpres =>
      intro c
      by_cases hc : (c.user == (upsertCart db uid).1.user) = true
      · have : c.user = (upsertCart db uid).1.user := by simpa using hc
        simp [hc, this]
      · simp only [Bool.not_eq_true] at hc
        simp [hc]
    have hfound : findCartIn (upsertCart db uid).2.carts uid =
        some (upsertCart db uid).1 := findCart_upsert db uid
    unfold findCartIn at hfound
    rw [hfound]
    simp [huser]
  · rw [find?_mergeCartItem]
    unfold prevQty
    unfold upsertCart at *
    cases hc : findCart db uid with
    | some c => rw [hc] at *; simp
    | none => rw [hc] at *; simp [List.find?]

theorem findProductIn_id (ps : List Product) (pid : Nat) (p : Product)
    (h : findProductIn ps pid = some p) : p.id = pid := by
  unfold findProductIn at h
  simpa using List.find?_some h

theorem bulkUpdate_id (op : BulkOp) (p : Product) : (bulkUpdate op p).id = p.id := rfl

theorem applyBulkOp_find_map (ps : List Product) (op : BulkOp) (pid : Nat) :
    findProductIn (applyBulkOp ps op) pid =
      (findProductIn ps pid).map
        (fun p => if p.id == op.pid then bulkUpdate op p else p) := by
  unfold applyBulkOp
  apply find?_map_of_pred
  intro p
  by_cases hp : (p.id == op.pid) = true
  · simp [hp, bulkUpdate]
  · simp only [Bool.not_eq_true] at hp
    simp [hp]

theorem applyBulkOp_find_self (ps : List Product) (op : BulkOp) :
    findProductIn (applyBulkOp ps op) op.pid =
      (findProductIn ps op.pid).map (bulkUpdate op) := by
  rw [applyBulkOp_find_map]
  cases hf : findProductIn ps op.pid with
  | none => rfl
  | some p =>
    have hid := findProductIn_id ps op.pid p hf
    simp [hid]

theorem applyBulkOp_find_other (ps : List Product) (op : BulkOp) (pid : Nat)
    (h : pid ≠ op.pid) :
    findProductIn (applyBulkOp ps op) pid = findProductIn ps pid := by
  rw [applyBulkOp_find_map]
  cases hf : findProductIn ps pid with
  | none => rfl
  | some p =>
    have hid := findProductIn_id ps pid p hf
    simp [hid, h]

theorem applyBulkOps_find_untouched (ops : List BulkOp) (ps : List Product)
    (pid : Nat) (h : ∀ op ∈ ops, op.pid ≠ pid) :
    findProductIn (applyBulkOps ps ops) pid = findProductIn ps pid := by
  induction ops generalizing ps with
  | nil => rfl
  | cons op rest ih =>
    have hstep : applyBulkOps ps (op :: rest) = applyBulkOps (applyBulkOp ps op) rest := rfl
    rw [hstep, ih (applyBulkOp ps op) (fun o ho => h o (List.mem_cons_of_mem _ ho))]
    exact applyBulkOp_find_other ps op pid
      (fun he => h op (List.mem_cons_self _ _) he.symm)

theorem applyBulkOps_find (ops : List BulkOp) (ps : List Product)
    (hnd : (ops.map (fun op => op.pid)).Nodup) :
    ∀ op ∈ ops, findProductIn (applyBulkOps ps ops) op.pid =
      (findProductIn ps op.pid).map (bulkUpdate op) := by
  induction ops generalizing ps with
  | nil => intro op h; cases h
  | cons op0 rest ih =>
    intro op hop
    rw [List.map_cons, List.nodup_cons] at hnd
    obtain ⟨hnot, hndr⟩ := hnd
    have hstep : applyBulkOps ps (op0 :: rest) = applyBulkOps (applyBulkOp ps op0) rest := rfl
    rcases List.mem_cons.mp hop with rfl | hmem
    · have hne : ∀ o ∈ rest, o.pid ≠ op.pid := fun o ho he =>
        hnot (by rw [← he]; exact List.mem_map_of_mem _ ho)
      rw [hstep, applyBulkOps_find_untouched rest _ op.pid hne]
      exact applyBulkOp_find_self ps op
    · have hne : op.pid ≠ op0.pid := fun he =>
        hnot (by rw [← he]; exact List.mem_map_of_mem _ hmem)
      rw [hstep, ih (applyBulkOp ps op0) hndr op hmem,
        applyBulkOp_find_other ps op0 op.pid hne]

theorem lineOK_parts (db : DB) (it : CartItem) (h : lineOK db it = true) :
    ∃ p, findProduct db it.product = some p ∧ p.status = "active" ∧
      it.quantity ≤ p.stock ∧ (1 : ℚ) ≤ it.quantity ∧ (0 : ℚ) ≤ p.price := by
  unfold lineOK at h
  cases hp : findProduct db it.product with
  | none => rw [hp] at h; cases h
  | some p =>
    rw [hp] at h
    dsimp only at h
    simp only [Bool.and_eq_true, beq_iff_eq, decide_eq_true_eq] at h
    exact ⟨p, rfl, h.1.1.1, h.1.1.2, h.1.2, h.2⟩

theorem checkoutValidateItems_ok_of_lineOK (db : DB) (items : List CartItem)
    (h : ∀ it ∈ items, lineOK db it = true) :
    checkoutValidateItems db items =
      .ok (items.map (orderItemOf db), (items.map (lineAmount db)).sum) := by
  induction items with
  | nil => simp [checkoutValidateItems]
  | cons it rest ih =>
    obtain ⟨p, hp, hact, hle, _, _⟩ := lineOK_parts db it (h it (List.mem_cons_self _ _))
    unfold checkoutValidateItems
    rw [hp]
    dsimp only
    rw [if_pos hact, if_neg (not_lt.mpr hle)]
    rw [ih (fun x hx => h x (List.mem_cons_of_mem _ hx))]
    have hid : p.id = it.product := by
      unfold findProduct at hp
      exact findProductIn_id db.products it.product p hp
    simp [orderItemOf, lineAmount, hp, hid]

theorem orderItemsValid_of_lineOK (db : DB) (items : List CartItem)
    (h : ∀ it ∈ items, lineOK db it = true) :
    orderItemsValid (items.map (orderItemOf db)) = true := by
  unfold orderItemsValid
  rw [List.all_eq_true]
  intro x hx
  obtain ⟨it, hit, rfl⟩ := List.mem_map.mp hx
  obtain ⟨p, hp, _, _, hq1, hp0⟩ := lineOK_parts db it (h it hit)
  simp [orderItemOf, hp, hq1, hp0]

theorem mkBulkOps_eq_map (db : DB) (items : List CartItem)
    (h : ∀ it ∈ items, lineOK db it = true) :
    mkBulkOps db items = items.map (opOf db) := by
  induction items with
  | nil => rfl
  | cons it rest ih =>
    obtain ⟨p, hp, _, _, _, _⟩ := lineOK_parts db it (h it (List.mem_cons_self _ _))
    have hid : p.id = it.product := by
      unfold findProduct at hp
      exact findProductIn_id db.products it.product p hp
    unfold mkBulkOps at *
    simp only [List.filterMap_cons, List.map_cons, hp, Option.map_some]
    rw [ih (fun x hx => h x (List.mem_cons_of_mem _ hx))]
    simp [opOf, stockOf, hp, hid]

theorem findCart_clearCart (db : DB) (uid : Nat) (cart : Cart)
    (hc : findCart db uid = some cart) :
    findCart (clearCart db uid) uid = some { cart with items := [] } := by
  unfold clearCart findCart findCartIn at *
  rw [find?_map_of_pred _ _ _ ?hpres]
  case hpres =>
    intro c
    by_cases hcu : (c.user == uid) = true
    · have : c.user = uid := by simpa using hcu
      simp [hcu, this]
    · simp only [Bool.not_eq_true] at hcu
      simp [hcu]
  rw [hc]
  have : cart.user = uid := by simpa using List.find?_some hc
  simp [this]

/-- Claim C2: a successful checkout over a cart whose lines all carry an
active product with sufficient stock (and the schema-guaranteed quantity ≥ 1,
price ≥ 0, and pairwise-distinct product references that addToCart maintains)
answers 201 with an order of status placed whose subtotal is the live-price
sum, deliveryFee = calculateDeliveryFee(subtotal) and
total = subtotal + deliveryFee; appends exactly that order to the store; for
every line decrements the product's stock by the ordered quantity, increments
its totalSold by the same amount, and sets its status to out_of_stock exactly
when the resulting stock is ≤ 0, active otherwise; and empties — without
deleting — the user's cart. -/
theorem checkout_success_postconditions (db : DB) (uid : Nat) (cart : Cart)
    (hc : findCart db uid = some cart) (hne : cart.items ≠ [])
    (hok : ∀ it ∈ cart.items, lineOK db it = true)
    (hnd : (cart.items.map (fun it => it.product)).Nodup) :
    ∃ o, (checkout db uid).1 = .ok 201 o ∧
      o.status = "placed" ∧
      o.items = cart.items.map (orderItemOf db) ∧
      o.subtotal = (cart.items.map (lineAmount db)).sum ∧
      o.deliveryFee = calculateDeliveryFee o.subtotal ∧
      o.total = o.subtotal + o.deliveryFee ∧
      (checkout db uid).2.orders = db.orders ++ [o] ∧
      (∀ it ∈ cart.items, ∀ p, findProduct db it.product = some p →
        ∃ p2, findProduct (checkout db uid).2 it.product = some p2 ∧
          p2.stock = p.stock - it.quantity ∧
          p2.totalSold = p.totalSold + it.quantity ∧
          p2.status = (if p.stock - it.quantity ≤ 0 then "out_of_stock" else "active")) ∧
      findCart (checkout db uid).2 uid = some { cart with items := [] } := by
  have hval := checkoutValidateItems_ok_of_lineOK db cart.items hok
  have hov := orderItemsValid_of_lineOK db cart.items hok
  have hemp : cart.items.isEmpty = false := by
    simpa [List.isEmpty_iff] using hne
  have hstep : checkout db uid =
      (.ok 201 ⟨db.orders.length, uid, cart.items.map (orderItemOf db),
          (cart.items.map (lineAmount db)).sum,
          calculateDeliveryFee ((cart.items.map (lineAmount db)).sum),
          (cart.items.map (lineAmount db)).sum +
            calculateDeliveryFee ((cart.items.map (lineAmount db)).sum), "placed"⟩,
        clearCart
          { products := applyBulkOps db.products (mkBulkOps db cart.items),
            carts := db.carts,
            orders := db.orders ++
              [⟨db.orders.length, uid, cart.items.map (orderItemOf db),
                (cart.items.map (lineAmount db)).sum,
                calculateDeliveryFee ((cart.items.map (lineAmount db)).sum),
                (cart.items.map (lineAmount db)).sum +
                  calculateDeliveryFee ((cart.items.map (lineAmount db)).sum), "placed"⟩] }
          uid) := by
    unfold checkout
    rw [hc]
    dsimp only
    rw [hemp]
    simp only [Bool.false_eq_true, if_false, hval]
    rw [if_pos hov]
  refine ⟨_, by rw [hstep], rfl, rfl, rfl, rfl, rfl, ?_, ?_, ?_⟩
  · rw [hstep]
    rfl
  · intro it hit p hp
    have hp2 : findProductIn db.products it.product = some p := hp
    rw [hstep]
    have hops := mkBulkOps_eq_map db cart.items hok
    have hpidmap : (cart.items.map (opOf db)).map (fun op => op.pid) =
        cart.items.map (fun it => it.product) := by
      rw [List.map_map]
      rfl
    have hfind := applyBulkOps_find (cart.items.map (opOf db)) db.products
      (by rw [hpidmap]; exact hnd) (opOf db it) (List.mem_map_of_mem _ hit)
    refine ⟨bulkUpdate (opOf db it) p, ?_, rfl, rfl, ?_⟩
    · show findProductIn (applyBulkOps db.products (mkBulkOps db cart.items))
        it.product = some (bulkUpdate (opOf db it) p)
      have hpid : (opOf db it).pid = it.product := rfl
      rw [hops, ← hpid, hfind, hpid, hp2]
      rfl
    · show (opOf db it).newStatus = _
      unfold opOf stockOf
      rw [hp]
      rfl
  · rw [hstep]
    exact findCart_clearCart _ uid cart hc

/-- Witness for C2 on the spec §8 scenario: price 100, stock 5, quantity 2 —
checkout answers 201 with subtotal 200, fee 20, total 220, leaves stock 3 and
totalSold 2, and empties the cart. -/
theorem checkout_success_postconditions_witness :
    ∃ o, (checkout demoDB 7).1 = .ok 201 o ∧
      o.status = "placed" ∧
      o.items = demoCart.items.map (orderItemOf demoDB) ∧
      o.subtotal = (demoCart.items.map (lineAmount demoDB)).sum ∧
      o.deliveryFee = calculateDeliveryFee o.subtotal ∧
      o.total = o.subtotal + o.deliveryFee ∧
      (checkout demoDB 7).2.orders = demoDB.orders ++ [o] ∧
      (∀ it ∈ demoCart.items, ∀ p, findProduct demoDB it.product = some p →
        ∃ p2, findProduct (checkout demoDB 7).2 it.product = some p2 ∧
          p2.stock = p.stock - it.quantity ∧
          p2.totalSold = p.totalSold + it.quantity ∧
          p2.status = (if p.stock - it.quantity ≤ 0 then "out_of_stock" else "active")) ∧
      findCart (checkout demoDB 7).2 7 = some { demoCart with items := [] } :=
  checkout_success_postconditions demoDB 7 demoCart rfl (by decide) (by decide)
    (by decide)

/-- Witness for the amended C10: adding q = −2 of the active product to a cart
line holding 5 succeeds with 200 and persists quantity 3 — a negative q is
accepted as long as the resulting quantity stays at least 1. -/
theorem addToCart_merges_quantity_witness :
    ∃ c, (addToCart demoDB5 7 1 (-2)).1 = .ok 200 c ∧
      findCart (addToCart demoDB5 7 1 (-2)).2 7 = some c ∧
      (c.items.find? (fun it => it.product == 1)).map (fun it => it.quantity) =
        some ((prevQty demoDB5 7 1).getD 0 + (-2)) :=
  addToCart_merges_quantity demoDB5 7 1 (-2) demoProduct rfl rfl (by
    norm_num [cartItemsValid, mergeCartItem, upsertCart, findCart, findCartIn,
      demoDB5, demoCart5, List.any, List.find?, List.all])

end AgroMate
